import Mathlib

/-!
Shallow embedding of the rowheel wheel-to-gamepad bridge.

The Rust sources are embedded as executable Lean definitions:
`src/config.rs` (AxisBinding, WheelConfig), `src/calibration.rs`
(CalibrationStep, AxisTracker, CalibrationWizard), the rumble-to-force
mapping of `src/force_feedback/linux.rs` and `src/force_feedback/windows.rs`,
and the force-feedback listener of `src/virtual_controller/linux.rs`.

Modelling conventions:
* `f32` values are modelled as rationals (`ℚ`); the claims under
  verification are exact linear/ordering facts about the arithmetic.
* Rust `HashMap` state is modelled as an association list; iteration
  order for `max_by` follows the list (Rust's `max_by` keeps the last
  maximal element, mirrored by the fold below).
* `WheelConfig::save` is an external effectful collaborator; `advance`
  takes the outcome of that call as a boolean argument and additionally
  returns whether the save collaborator was invoked.
-/

namespace RoWheel

/-- Rust `f32::clamp(lo, hi)`: returns `lo` if below, `hi` if above. -/
def clampQ (x lo hi : ℚ) : ℚ := min (max x lo) hi

/-- Rust `f32::abs`, written so that the kernel can evaluate it. -/
def absQ (x : ℚ) : ℚ := if x < 0 then -x else x

theorem absQ_eq_abs (x : ℚ) : absQ x = |x| := by
  unfold absQ
  split
  · exact (abs_of_neg ‹_›).symm
  · exact (abs_of_nonneg (not_lt.mp ‹_›)).symm

/-- Degenerate-range epsilon used by `normalize` and `normalize_trigger`
(`0.001` in `src/config.rs`). -/
def calibEps : ℚ := 1 / 1000

/-- Calibration record for one axis (`AxisBinding` in `src/config.rs`). -/
structure AxisBinding where
  device_id : String
  device_name : String
  axis_code : Nat
  min_value : ℚ
  max_value : ℚ
  inverted : Bool
deriving DecidableEq, Repr

/-- Normalize a raw value to the -1..1 range based on calibration
(`AxisBinding::normalize`). -/
def AxisBinding.normalize (b : AxisBinding) (raw_value : ℚ) : ℚ :=
  if absQ (b.max_value - b.min_value) < calibEps then 0
  else
    let normalized :=
      clampQ ((raw_value - b.min_value) / (b.max_value - b.min_value) * 2 - 1) (-1) 1
    if b.inverted then -normalized else normalized

/-- Normalize a raw value to the 0..1 range for triggers
(`AxisBinding::normalize_trigger`). -/
def AxisBinding.normalize_trigger (b : AxisBinding) (raw_value : ℚ) : ℚ :=
  if absQ (b.max_value - b.min_value) < calibEps then 0
  else
    let normalized :=
      clampQ ((raw_value - b.min_value) / (b.max_value - b.min_value)) 0 1
    if b.inverted then 1 - normalized else normalized

/-- Calibration record for one button (`ButtonBinding` in `src/config.rs`). -/
structure ButtonBinding where
  device_id : String
  device_name : String
  button_code : Nat
deriving DecidableEq, Repr

/-- The persisted profile (`WheelConfig` in `src/config.rs`). -/
structure WheelConfig where
  steering : Option AxisBinding
  throttle : Option AxisBinding
  brake : Option AxisBinding
  clutch : Option AxisBinding
  shift_up : Option ButtonBinding
  shift_down : Option ButtonBinding
  force_feedback_device : Option String
deriving DecidableEq, Repr

/-- Rust `WheelConfig::default()`: every binding absent. -/
def WheelConfig.default : WheelConfig :=
  ⟨none, none, none, none, none, none, none⟩

/-- Completeness check (`WheelConfig::is_complete`). -/
def WheelConfig.is_complete (c : WheelConfig) : Bool :=
  c.steering.isSome && c.throttle.isSome && c.brake.isSome
    && c.shift_up.isSome && c.shift_down.isSome

section ClampLemmas

variable {x y lo hi : ℚ}

theorem clampQ_le_hi : clampQ x lo hi ≤ hi := min_le_right _ _

theorem lo_le_clampQ (h : lo ≤ hi) : lo ≤ clampQ x lo hi :=
  le_min (le_max_right _ _) h

theorem clampQ_mono (h : x ≤ y) : clampQ x lo hi ≤ clampQ y lo hi :=
  min_le_min (max_le_max h le_rfl) le_rfl

theorem clampQ_eq_self (h1 : lo ≤ x) (h2 : x ≤ hi) : clampQ x lo hi = x := by
  unfold clampQ
  rw [max_eq_left h1, min_eq_left h2]

theorem clampQ_eq_lo (h1 : x ≤ lo) (h2 : lo ≤ hi) : clampQ x lo hi = lo := by
  unfold clampQ
  rw [max_eq_right h1, min_eq_left h2]

theorem clampQ_eq_hi (h1 : hi ≤ x) : clampQ x lo hi = hi := by
  unfold clampQ
  exact min_eq_right (le_trans h1 (le_max_left x lo))

end ClampLemmas

/-- Steps of the calibration wizard (`CalibrationStep` in `src/calibration.rs`). -/
inductive CalibrationStep where
  | Welcome
  | SteeringLeft
  | SteeringRight
  | ThrottlePressed
  | ThrottleReleased
  | BrakePressed
  | BrakeReleased
  | ClutchPressed
  | ClutchReleased
  | ShiftUp
  | ShiftDown
  | Complete
deriving DecidableEq, Repr

/-- Linear step order (`CalibrationStep::next`). -/
def CalibrationStep.next : CalibrationStep → CalibrationStep
  | .Welcome => .SteeringLeft
  | .SteeringLeft => .SteeringRight
  | .SteeringRight => .ThrottlePressed
  | .ThrottlePressed => .ThrottleReleased
  | .ThrottleReleased => .BrakePressed
  | .BrakePressed => .BrakeReleased
  | .BrakeReleased => .ClutchPressed
  | .ClutchPressed => .ClutchReleased
  | .ClutchReleased => .ShiftUp
  | .ShiftUp => .ShiftDown
  | .ShiftDown => .Complete
  | .Complete => .Complete

/-- Whether the step offers the Skip button (`CalibrationStep::can_skip`). -/
def CalibrationStep.can_skip : CalibrationStep → Bool
  | .ClutchPressed => true
  | .ClutchReleased => true
  | _ => false

/-- Transition used by `skip` (`CalibrationStep::skip_clutch`): the clutch
steps jump to ShiftUp, any other step falls back to `next`. -/
def CalibrationStep.skip_clutch (s : CalibrationStep) : CalibrationStep :=
  if s = .ClutchPressed ∨ s = .ClutchReleased then .ShiftUp else s.next

/-- Movement tracking entry (`AxisTracker` in `src/calibration.rs`). -/
structure AxisTracker where
  device_id : String
  device_name : String
  axis_code : Nat
  initial_value : ℚ
  current_value : ℚ
deriving DecidableEq, Repr

/-- Absolute movement since tracking started (`AxisTracker::movement`). -/
def AxisTracker.movement (t : AxisTracker) : ℚ :=
  absQ (t.current_value - t.initial_value)

/-- Input events fed to the wizard (`InputEvent` in `src/input/mod.rs`;
the device payload of `DeviceConnected` is irrelevant here and elided). -/
inductive InputEvent where
  | AxisMoved (device_id device_name : String) (axis_code : Nat) (value : ℚ)
  | ButtonPressed (device_id device_name : String) (button_code : Nat)
  | ButtonReleased (device_id device_name : String) (button_code : Nat)
  | DeviceConnected
  | DeviceDisconnected (device_id : String)
deriving DecidableEq, Repr

/-- Wizard state (`CalibrationWizard` in `src/calibration.rs`). The
tracker `HashMap` keyed by `(device_id, axis_code)` is modelled as an
association list of trackers carrying their own key fields. -/
structure CalibrationWizard where
  step : CalibrationStep
  config : WheelConfig
  axis_trackers : List AxisTracker
  captured_axis : Option (String × String × Nat × ℚ)
  captured_button : Option (String × String × Nat)
deriving DecidableEq, Repr

/-- Fresh wizard (`CalibrationWizard::new`). -/
def CalibrationWizard.new (existing_config : Option WheelConfig) : CalibrationWizard :=
  ⟨.Welcome, existing_config.getD WheelConfig.default, [], none, none⟩

/-- Event processing during calibration (`CalibrationWizard::process_event`).
An axis event updates the tracker with the matching key or inserts a new
one; a button press overwrites the captured button; other events are
ignored. -/
def CalibrationWizard.process_event (w : CalibrationWizard) (e : InputEvent) :
    CalibrationWizard :=
  match e with
  | .AxisMoved id name code v =>
      if w.axis_trackers.any (fun t => t.device_id == id && t.axis_code == code) then
        { w with axis_trackers :=
            w.axis_trackers.map (fun t =>
              if t.device_id == id && t.axis_code == code then
                { t with current_value := v }
              else t) }
      else
        { w with axis_trackers := w.axis_trackers ++ [⟨id, name, code, v, v⟩] }
  | .ButtonPressed id name code =>
      { w with captured_button := some (id, name, code) }
  | _ => w

/-- One comparison step of Rust `Iterator::max_by` over tracker movement:
keeps the later element when movements tie. -/
def maxStep (acc : Option AxisTracker) (t : AxisTracker) : Option AxisTracker :=
  match acc with
  | none => some t
  | some m => if m.movement ≤ t.movement then some t else some m

/-- Rust `Iterator::max_by` over tracker movement: keeps the last element
among equally maximal ones. -/
def maxByMovement (l : List AxisTracker) : Option AxisTracker :=
  l.foldl maxStep none

/-- Most moved tracked axis, filtered by the `0.1` noise threshold
(`CalibrationWizard::get_most_moved_axis`). -/
def CalibrationWizard.get_most_moved_axis (w : CalibrationWizard) :
    Option AxisTracker :=
  match maxByMovement w.axis_trackers with
  | some t => if (1 : ℚ) / 10 < t.movement then some t else none
  | none => none

/-- Record the winning axis position (`CalibrationWizard::capture_axis_position`). -/
def CalibrationWizard.capture_axis_position (w : CalibrationWizard) :
    CalibrationWizard :=
  match w.get_most_moved_axis with
  | some t =>
      { w with
        captured_axis := some (t.device_id, t.device_name, t.axis_code, t.current_value) }
  | none => w

/-- Direction auto-correction repeated in the SteeringRight /
ThrottleReleased / BrakeReleased / ClutchReleased arms of
`CalibrationWizard::advance`: if `min_value > max_value`, swap them and
set `inverted`. -/
def fixDirection (b : AxisBinding) : AxisBinding :=
  if b.max_value < b.min_value then
    { b with min_value := b.max_value, max_value := b.min_value, inverted := true }
  else b

/-- Advance to the next step, committing calibration data
(`CalibrationWizard::advance`). `saveOk` is the outcome of the external
`WheelConfig::save` collaborator (invoked only in the `Complete` arm,
where an `Err` is merely logged); the returned boolean records whether
that collaborator was invoked. The outcome is deliberately unused: the
source only logs a failed save and keeps the in-memory config. -/
def CalibrationWizard.advance (w : CalibrationWizard) (_saveOk : Bool) :
    CalibrationWizard × Bool :=
  let w' := w.capture_axis_position
  let res : WheelConfig × Bool :=
    match w'.step with
    | .SteeringLeft =>
        match w'.captured_axis with
        | some (id, name, code, v) =>
            ({ w'.config with steering := some ⟨id, name, code, v, v, false⟩ }, false)
        | none => (w'.config, false)
    | .SteeringRight =>
        match w'.config.steering, w'.captured_axis with
        | some s, some (_, _, _, v) =>
            ({ w'.config with
                steering := some (fixDirection { s with max_value := v }) }, false)
        | _, _ => (w'.config, false)
    | .ThrottlePressed =>
        match w'.captured_axis with
        | some (id, name, code, v) =>
            ({ w'.config with throttle := some ⟨id, name, code, v, v, false⟩ }, false)
        | none => (w'.config, false)
    | .ThrottleReleased =>
        match w'.config.throttle, w'.captured_axis with
        | some t, some (_, _, _, v) =>
            ({ w'.config with
                throttle := some (fixDirection { t with min_value := v }) }, false)
        | _, _ => (w'.config, false)
    | .BrakePressed =>
        match w'.captured_axis with
        | some (id, name, code, v) =>
            ({ w'.config with brake := some ⟨id, name, code, v, v, false⟩ }, false)
        | none => (w'.config, false)
    | .BrakeReleased =>
        match w'.config.brake, w'.captured_axis with
        | some t, some (_, _, _, v) =>
            ({ w'.config with
                brake := some (fixDirection { t with min_value := v }) }, false)
        | _, _ => (w'.config, false)
    | .ClutchPressed =>
        match w'.captured_axis with
        | some (id, name, code, v) =>
            ({ w'.config with clutch := some ⟨id, name, code, v, v, false⟩ }, false)
        | none => (w'.config, false)
    | .ClutchReleased =>
        match w'.config.clutch, w'.captured_axis with
        | some t, some (_, _, _, v) =>
            ({ w'.config with
                clutch := some (fixDirection { t with min_value := v }) }, false)
        | _, _ => (w'.config, false)
    | .ShiftUp =>
        match w'.captured_button with
        | some (id, name, code) =>
            ({ w'.config with shift_up := some ⟨id, name, code⟩ }, false)
        | none => (w'.config, false)
    | .ShiftDown =>
        match w'.captured_button with
        | some (id, name, code) =>
            ({ w'.config with shift_down := some ⟨id, name, code⟩ }, false)
        | none => (w'.config, false)
    | .Complete => (w'.config, true)
    | .Welcome => (w'.config, false)
  (⟨w'.step.next, res.1, [], none, none⟩, res.2)

/-- Skip the current step (`CalibrationWizard::skip`): clears per-step
tracking and transitions via `skip_clutch`. -/
def CalibrationWizard.skip (w : CalibrationWizard) : CalibrationWizard :=
  ⟨w.step.skip_clutch, w.config, [], none, none⟩

/-- Whether the current step tracks axes
(`CalibrationWizard::needs_axis_detection`). -/
def CalibrationWizard.needs_axis_detection (w : CalibrationWizard) : Bool :=
  match w.step with
  | .SteeringLeft | .SteeringRight | .ThrottlePressed | .ThrottleReleased
  | .BrakePressed | .BrakeReleased | .ClutchPressed | .ClutchReleased => true
  | _ => false

theorem capture_axis_position_step (w : CalibrationWizard) :
    w.capture_axis_position.step = w.step := by
  unfold CalibrationWizard.capture_axis_position
  cases w.get_most_moved_axis <;> rfl

theorem capture_axis_position_config (w : CalibrationWizard) :
    w.capture_axis_position.config = w.config := by
  unfold CalibrationWizard.capture_axis_position
  cases w.get_most_moved_axis <;> rfl

theorem advance_fst_step (w : CalibrationWizard) (saveOk : Bool) :
    (w.advance saveOk).1.step = w.step.next := by
  show w.capture_axis_position.step.next = w.step.next
  rw [capture_axis_position_step]

theorem foldl_maxStep_mem (l : List AxisTracker) :
    ∀ (acc : Option AxisTracker) (t : AxisTracker),
      l.foldl maxStep acc = some t → acc = some t ∨ t ∈ l := by
  induction l with
  | nil =>
      intro acc t h
      exact Or.inl h
  | cons a l ih =>
      intro acc t h
      rcases ih (maxStep acc a) t h with h1 | h1
      · cases acc with
        | none =>
            replace h1 : some a = some t := h1
            right
            rw [← Option.some.inj h1]
            exact List.mem_cons_self a l
        | some m =>
            replace h1 : (if m.movement ≤ a.movement then some a else some m) = some t := h1
            by_cases hc : m.movement ≤ a.movement
            · rw [if_pos hc] at h1
              right
              rw [← Option.some.inj h1]
              exact List.mem_cons_self a l
            · rw [if_neg hc] at h1
              exact Or.inl h1
      · exact Or.inr (List.mem_cons_of_mem a h1)

theorem maxByMovement_mem {l : List AxisTracker} {t : AxisTracker}
    (h : maxByMovement l = some t) : t ∈ l := by
  rcases foldl_maxStep_mem l none t h with h1 | h1
  · exact absurd h1 (by simp)
  · exact h1

theorem get_most_moved_axis_eq_none (w : CalibrationWizard)
    (hmove : ∀ t ∈ w.axis_trackers, t.movement ≤ 1 / 10) :
    w.get_most_moved_axis = none := by
  unfold CalibrationWizard.get_most_moved_axis
  cases hm : maxByMovement w.axis_trackers with
  | none => rfl
  | some t =>
      show (if 1 / 10 < t.movement then some t else none) = none
      rw [if_neg (not_lt.mpr (hmove t (maxByMovement_mem hm)))]

theorem capture_axis_position_of_idle (w : CalibrationWizard)
    (hmove : ∀ t ∈ w.axis_trackers, t.movement ≤ 1 / 10) :
    w.capture_axis_position = w := by
  unfold CalibrationWizard.capture_axis_position
  rw [get_most_moved_axis_eq_none w hmove]

theorem normalize_eq (b : AxisBinding) (raw : ℚ)
    (h : ¬ |b.max_value - b.min_value| < calibEps) :
    b.normalize raw =
      if b.inverted then
        -(clampQ ((raw - b.min_value) / (b.max_value - b.min_value) * 2 - 1) (-1) 1)
      else
        clampQ ((raw - b.min_value) / (b.max_value - b.min_value) * 2 - 1) (-1) 1 := by
  unfold AxisBinding.normalize
  rw [absQ_eq_abs, if_neg h]

theorem normalize_trigger_eq (b : AxisBinding) (raw : ℚ)
    (h : ¬ |b.max_value - b.min_value| < calibEps) :
    b.normalize_trigger raw =
      if b.inverted then
        1 - clampQ ((raw - b.min_value) / (b.max_value - b.min_value)) 0 1
      else
        clampQ ((raw - b.min_value) / (b.max_value - b.min_value)) 0 1 := by
  unfold AxisBinding.normalize_trigger
  rw [absQ_eq_abs, if_neg h]

theorem inner_affine_mono {m r x y : ℚ} (hr : 0 < r) (hxy : x ≤ y) :
    (x - m) / r * 2 - 1 ≤ (y - m) / r * 2 - 1 := by
  have h2 : (x - m) / r ≤ (y - m) / r :=
    (div_le_div_right hr).mpr (sub_le_sub_right hxy m)
  linarith

/-- C1: on a calibrated binding (range at least epsilon) and with
`min_value ≤ max_value`, `normalize` is the affine map sending the
calibrated interval onto [-1, 1] (negated when inverted), it saturates at
the interval ends, stays within [-1, 1] everywhere, and is monotone
(antitone when inverted); on a degenerate binding (range below epsilon)
both `normalize` and `normalize_trigger` return exactly 0 for every raw
value. -/
theorem C1_normalize_spec (b : AxisBinding) (raw : ℚ) :
    (calibEps ≤ |b.max_value - b.min_value| →
      (-1 ≤ b.normalize raw ∧ b.normalize raw ≤ 1) ∧
      (b.min_value ≤ b.max_value →
        (b.min_value ≤ raw → raw ≤ b.max_value →
          b.normalize raw =
            (if b.inverted then -1 else 1) *
              ((2 * raw - (b.min_value + b.max_value)) /
                (b.max_value - b.min_value))) ∧
        (raw ≤ b.min_value →
          b.normalize raw = if b.inverted then 1 else -1) ∧
        (b.max_value ≤ raw →
          b.normalize raw = if b.inverted then -1 else 1) ∧
        (∀ r2 : ℚ, raw ≤ r2 →
          (b.inverted = false → b.normalize raw ≤ b.normalize r2) ∧
          (b.inverted = true → b.normalize r2 ≤ b.normalize raw)))) ∧
    (|b.max_value - b.min_value| < calibEps →
      b.normalize raw = 0 ∧ b.normalize_trigger raw = 0) := by
  constructor
  · intro h
    have hnlt : ¬ |b.max_value - b.min_value| < calibEps := not_lt.mpr h
    have hne : b.max_value - b.min_value ≠ 0 := by
      intro h0
      rw [h0, abs_zero] at h
      norm_num [calibEps] at h
    constructor
    · -- bounds hold for every raw value
      rw [normalize_eq b raw hnlt]
      have h1 : (-1 : ℚ) ≤
          clampQ ((raw - b.min_value) / (b.max_value - b.min_value) * 2 - 1) (-1) 1 :=
        lo_le_clampQ (by norm_num)
      have h2 :
          clampQ ((raw - b.min_value) / (b.max_value - b.min_value) * 2 - 1) (-1) 1 ≤ 1 :=
        clampQ_le_hi
      cases hinv : b.inverted
      · simpa [hinv] using ⟨h1, h2⟩
      · simp only [hinv, if_true]
        constructor <;> linarith
    · intro hm
      have hr : 0 < b.max_value - b.min_value :=
        lt_of_le_of_ne (sub_nonneg.mpr hm) (Ne.symm hne)
      refine ⟨?_, ?_, ?_, ?_⟩
      · -- affine form inside the calibrated interval
        intro hlo hhi
        have h0 : (0 : ℚ) ≤ (raw - b.min_value) / (b.max_value - b.min_value) :=
          div_nonneg (by linarith) hr.le
        have h1 : (raw - b.min_value) / (b.max_value - b.min_value) ≤ 1 :=
          (div_le_one hr).mpr (by linarith)
        have key : (raw - b.min_value) / (b.max_value - b.min_value) * 2 - 1 =
            (2 * raw - (b.min_value + b.max_value)) / (b.max_value - b.min_value) := by
          field_simp
          ring
        rw [normalize_eq b raw hnlt,
          clampQ_eq_self (by linarith) (by linarith)]
        cases hinv : b.inverted <;> simp [hinv, key]
      · -- saturation at or below min_value
        intro hsat
        have h0 : (raw - b.min_value) / (b.max_value - b.min_value) ≤ 0 := by
          rw [div_le_iff hr]
          linarith
        rw [normalize_eq b raw hnlt, clampQ_eq_lo (by linarith) (by norm_num)]
        cases hinv : b.inverted <;> simp [hinv]
      · -- saturation at or above max_value
        intro hsat
        have h1 : (1 : ℚ) ≤ (raw - b.min_value) / (b.max_value - b.min_value) :=
          (one_le_div hr).mpr (by linarith)
        rw [normalize_eq b raw hnlt, clampQ_eq_hi (by linarith)]
      · -- monotone, antitone when inverted
        intro r2 hr2
        have hc :
            clampQ ((raw - b.min_value) / (b.max_value - b.min_value) * 2 - 1) (-1) 1 ≤
              clampQ ((r2 - b.min_value) / (b.max_value - b.min_value) * 2 - 1) (-1) 1 :=
          clampQ_mono (inner_affine_mono hr hr2)
        rw [normalize_eq b raw hnlt, normalize_eq b r2 hnlt]
        constructor
        · intro hinv
          simpa [hinv] using hc
        · intro hinv
          simpa [hinv] using neg_le_neg hc
  · intro h
    constructor
    · unfold AxisBinding.normalize
      rw [absQ_eq_abs, if_pos h]
    · unfold AxisBinding.normalize_trigger
      rw [absQ_eq_abs, if_pos h]

theorem C1_normalize_spec_witness :
    ((⟨"dev", "axis", 0, 0, 1, false⟩ : AxisBinding).normalize (1/2) =
      (if (false : Bool) then -1 else 1) *
        ((2 * (1/2 : ℚ) - (0 + 1)) / (1 - 0))) ∧
    ((⟨"dev", "axis", 0, 1/2, 1/2, false⟩ : AxisBinding).normalize 3 = 0 ∧
      (⟨"dev", "axis", 0, 1/2, 1/2, false⟩ : AxisBinding).normalize_trigger 3 = 0) :=
  ⟨((((C1_normalize_spec ⟨"dev", "axis", 0, 0, 1, false⟩ (1/2)).1
        (by norm_num [calibEps])).2 (by norm_num)).1 (by norm_num) (by norm_num)),
    (C1_normalize_spec ⟨"dev", "axis", 0, 1/2, 1/2, false⟩ 3).2
      (by norm_num [calibEps])⟩

/-- C8: on a calibrated binding, `normalize_trigger` sends `min_value` to
0 and `max_value` to 1 when not inverted, and the reversed values when
inverted. -/
theorem C8_trigger_endpoints (b : AxisBinding)
    (h : calibEps ≤ |b.max_value - b.min_value|) :
    (b.inverted = false →
      b.normalize_trigger b.min_value = 0 ∧ b.normalize_trigger b.max_value = 1) ∧
    (b.inverted = true →
      b.normalize_trigger b.min_value = 1 ∧ b.normalize_trigger b.max_value = 0) := by
  have hnlt : ¬ |b.max_value - b.min_value| < calibEps := not_lt.mpr h
  have hne : b.max_value - b.min_value ≠ 0 := by
    intro h0
    rw [h0, abs_zero] at h
    norm_num [calibEps] at h
  have hmin :
      clampQ ((b.min_value - b.min_value) / (b.max_value - b.min_value)) 0 1 = 0 := by
    rw [sub_self, zero_div]
    exact clampQ_eq_self le_rfl (by norm_num)
  have hmax :
      clampQ ((b.max_value - b.min_value) / (b.max_value - b.min_value)) 0 1 = 1 := by
    rw [div_self hne]
    exact clampQ_eq_self (by norm_num) le_rfl
  have h0 : clampQ (0 : ℚ) 0 1 = 0 := clampQ_eq_self le_rfl (by norm_num)
  constructor
  · intro hinv
    constructor
    · rw [normalize_trigger_eq b b.min_value hnlt]
      simp [hinv, hmin, h0]
    · rw [normalize_trigger_eq b b.max_value hnlt]
      simp [hinv, hmax, h0]
  · intro hinv
    constructor
    · rw [normalize_trigger_eq b b.min_value hnlt]
      simp [hinv, hmin, h0]
    · rw [normalize_trigger_eq b b.max_value hnlt]
      simp [hinv, hmax, h0]

theorem C8_trigger_endpoints_witness :
    ((⟨"dev", "axis", 0, 0, 1, false⟩ : AxisBinding).normalize_trigger 0 = 0 ∧
      (⟨"dev", "axis", 0, 0, 1, false⟩ : AxisBinding).normalize_trigger 1 = 1) ∧
    ((⟨"dev", "axis", 0, 0, 1, true⟩ : AxisBinding).normalize_trigger 0 = 1 ∧
      (⟨"dev", "axis", 0, 0, 1, true⟩ : AxisBinding).normalize_trigger 1 = 0) :=
  ⟨(C8_trigger_endpoints ⟨"dev", "axis", 0, 0, 1, false⟩
      (by norm_num [calibEps])).1 rfl,
    (C8_trigger_endpoints ⟨"dev", "axis", 0, 0, 1, true⟩
      (by norm_num [calibEps])).2 rfl⟩

/-- C4: in an axis-capture step, when no tracked axis moved beyond the
0.1 noise threshold (and the per-step capture slot is clear, as it always
is between advances since `process_event` never writes it and
`advance`/`skip` reset it), `advance` commits nothing: the config is
unchanged and the wizard still moves to the next step. -/
theorem C4_no_commit_below_threshold (w : CalibrationWizard) (saveOk : Bool)
    (hstep : w.needs_axis_detection = true)
    (hcap : w.captured_axis = none)
    (hmove : ∀ t ∈ w.axis_trackers, t.movement ≤ 1 / 10) :
    (w.advance saveOk).1.config = w.config ∧
      (w.advance saveOk).1.step = w.step.next ∧
      (∀ e : InputEvent, (w.process_event e).captured_axis = w.captured_axis) := by
  refine ⟨?_, advance_fst_step w saveOk, ?_⟩
  · have hid := capture_axis_position_of_idle w hmove
    simp only [CalibrationWizard.advance]
    rw [hid, hcap]
    cases hs : w.step
    case Welcome => exact absurd hstep (by simp [CalibrationWizard.needs_axis_detection, hs])
    case ShiftUp => exact absurd hstep (by simp [CalibrationWizard.needs_axis_detection, hs])
    case ShiftDown => exact absurd hstep (by simp [CalibrationWizard.needs_axis_detection, hs])
    case Complete => exact absurd hstep (by simp [CalibrationWizard.needs_axis_detection, hs])
    case SteeringLeft => rfl
    case ThrottlePressed => rfl
    case BrakePressed => rfl
    case ClutchPressed => rfl
    case SteeringRight => cases w.config.steering <;> rfl
    case ThrottleReleased => cases w.config.throttle <;> rfl
    case BrakeReleased => cases w.config.brake <;> rfl
    case ClutchReleased => cases w.config.clutch <;> rfl
  · intro e
    cases e
    case AxisMoved =>
      simp only [CalibrationWizard.process_event]
      split <;> rfl
    all_goals rfl

theorem C4_no_commit_below_threshold_witness :
    ((⟨.SteeringLeft, WheelConfig.default, [⟨"d", "n", 0, 0, 1/20⟩], none, none⟩ :
        CalibrationWizard).advance true).1.config =
      (⟨.SteeringLeft, WheelConfig.default, [⟨"d", "n", 0, 0, 1/20⟩], none, none⟩ :
        CalibrationWizard).config ∧
    ((⟨.SteeringLeft, WheelConfig.default, [⟨"d", "n", 0, 0, 1/20⟩], none, none⟩ :
        CalibrationWizard).advance true).1.step =
      (⟨.SteeringLeft, WheelConfig.default, [⟨"d", "n", 0, 0, 1/20⟩], none, none⟩ :
        CalibrationWizard).step.next ∧
    (∀ e : InputEvent,
      ((⟨.SteeringLeft, WheelConfig.default, [⟨"d", "n", 0, 0, 1/20⟩], none, none⟩ :
          CalibrationWizard).process_event e).captured_axis =
        (⟨.SteeringLeft, WheelConfig.default, [⟨"d", "n", 0, 0, 1/20⟩], none, none⟩ :
          CalibrationWizard).captured_axis) :=
  C4_no_commit_below_threshold
    ⟨.SteeringLeft, WheelConfig.default, [⟨"d", "n", 0, 0, 1/20⟩], none, none⟩
    true rfl rfl
    (by norm_num [List.forall_mem_singleton, AxisTracker.movement, absQ])

/-- C5 counterexample: a wizard on the Welcome step is not on a clutch
step, yet `skip` does have an effect there: it moves the wizard to the
next step instead of leaving it unchanged. -/
theorem C5_skip_counterexample :
    (CalibrationWizard.new none).step ≠ CalibrationStep.ClutchPressed ∧
    (CalibrationWizard.new none).step ≠ CalibrationStep.ClutchReleased ∧
    (CalibrationWizard.new none).skip.step ≠ (CalibrationWizard.new none).step := by
  decide

/-- C5 amended: `skip` never touches any binding of the config; on the two
clutch steps it jumps directly to ShiftUp; on every other step it is not a
no-op but clears per-step tracking and advances to the next step. -/
theorem C5_skip_amended (w : CalibrationWizard) :
    w.skip.config = w.config ∧
    ((w.step = CalibrationStep.ClutchPressed ∨ w.step = CalibrationStep.ClutchReleased) →
      w.skip.step = CalibrationStep.ShiftUp) ∧
    (w.step ≠ CalibrationStep.ClutchPressed → w.step ≠ CalibrationStep.ClutchReleased →
      w.skip.step = w.step.next) := by
  refine ⟨rfl, ?_, ?_⟩
  · intro h
    show w.step.skip_clutch = _
    unfold CalibrationStep.skip_clutch
    rw [if_pos h]
  · intro h1 h2
    show w.step.skip_clutch = _
    unfold CalibrationStep.skip_clutch
    rw [if_neg (by tauto)]

theorem C5_skip_amended_witness :
    (⟨CalibrationStep.ClutchPressed, WheelConfig.default, [], none, none⟩ :
        CalibrationWizard).skip.step = CalibrationStep.ShiftUp ∧
    (CalibrationWizard.new none).skip.step = (CalibrationWizard.new none).step.next :=
  ⟨(C5_skip_amended
      ⟨CalibrationStep.ClutchPressed, WheelConfig.default, [], none, none⟩).2.1
      (Or.inl rfl),
    (C5_skip_amended (CalibrationWizard.new none)).2.2 (by decide) (by decide)⟩

/-- C6 (actual code behavior at the divergence): the `advance` call made in
the ShiftDown step is the one whose transition reaches Complete, and it
does not invoke the save collaborator; the save collaborator is invoked
only by a further `advance` call made while already in the Complete step,
and even then its outcome leaves the in-memory config and the whole
resulting wizard state unchanged (no error propagates: `advance` returns
no error value). -/
theorem C6_save_only_on_reentrant_advance (w : CalibrationWizard) (saveOk : Bool) :
    (w.step = CalibrationStep.ShiftDown →
      (w.advance saveOk).1.step = CalibrationStep.Complete ∧
      (w.advance saveOk).2 = false) ∧
    (w.step = CalibrationStep.Complete →
      (w.advance saveOk).2 = true ∧
      (w.advance saveOk).1.config = w.config ∧
      (w.advance saveOk).1 = (w.advance (!saveOk)).1) := by
  constructor
  · intro hs
    constructor
    · rw [advance_fst_step, hs]
      rfl
    · simp only [CalibrationWizard.advance]
      rw [capture_axis_position_step, hs]
      cases hb : w.capture_axis_position.captured_button <;> rfl
  · intro hs
    refine ⟨?_, ?_, rfl⟩
    · simp only [CalibrationWizard.advance]
      rw [capture_axis_position_step, hs]
    · simp only [CalibrationWizard.advance]
      rw [capture_axis_position_step, hs]
      exact capture_axis_position_config w

theorem C6_save_only_on_reentrant_advance_witness :
    (((⟨.ShiftDown, WheelConfig.default, [], none, none⟩ :
        CalibrationWizard).advance true).1.step = CalibrationStep.Complete ∧
      ((⟨.ShiftDown, WheelConfig.default, [], none, none⟩ :
        CalibrationWizard).advance true).2 = false) ∧
    (((⟨.Complete, WheelConfig.default, [], none, none⟩ :
        CalibrationWizard).advance false).2 = true ∧
      ((⟨.Complete, WheelConfig.default, [], none, none⟩ :
        CalibrationWizard).advance false).1.config =
        (⟨.Complete, WheelConfig.default, [], none, none⟩ :
          CalibrationWizard).config ∧
      ((⟨.Complete, WheelConfig.default, [], none, none⟩ :
        CalibrationWizard).advance false).1 =
        ((⟨.Complete, WheelConfig.default, [], none, none⟩ :
          CalibrationWizard).advance (!false)).1) :=
  ⟨(C6_save_only_on_reentrant_advance
      ⟨.ShiftDown, WheelConfig.default, [], none, none⟩ true).1 rfl,
    (C6_save_only_on_reentrant_advance
      ⟨.Complete, WheelConfig.default, [], none, none⟩ false).2 rfl⟩

/-- C2: if the SteeringLeft `advance` commits captured value L and the
SteeringRight `advance` then commits captured value R (with the steering
binding carried unchanged in between), the resulting steering binding has
`min_value = L`, `max_value = R`, `inverted = false` when `L ≤ R`, and the
swapped values with `inverted = true` when `L > R`. -/
theorem C2_steering_direction (w₁ w₂ : CalibrationWizard) (b₁ b₂ : Bool)
    (d n d₂ n₂ : String) (c c₂ : Nat) (L R : ℚ)
    (h1 : w₁.step = CalibrationStep.SteeringLeft)
    (hc1 : w₁.capture_axis_position.captured_axis = some (d, n, c, L))
    (h2 : w₂.step = CalibrationStep.SteeringRight)
    (hs : w₂.config.steering = (w₁.advance b₁).1.config.steering)
    (hc2 : w₂.capture_axis_position.captured_axis = some (d₂, n₂, c₂, R)) :
    (L ≤ R →
      (w₂.advance b₂).1.config.steering = some ⟨d, n, c, L, R, false⟩) ∧
    (R < L →
      (w₂.advance b₂).1.config.steering = some ⟨d, n, c, R, L, true⟩) := by
  have hs1 : (w₁.advance b₁).1.config.steering = some ⟨d, n, c, L, L, false⟩ := by
    simp only [CalibrationWizard.advance]
    rw [capture_axis_position_step, h1, hc1]
  rw [hs1] at hs
  have hres : (w₂.advance b₂).1.config.steering =
      some (fixDirection ⟨d, n, c, L, R, false⟩) := by
    simp only [CalibrationWizard.advance]
    rw [capture_axis_position_step, h2, capture_axis_position_config, hs, hc2]
  rw [hres]
  constructor
  · intro hLR
    unfold fixDirection
    rw [if_neg (by exact not_lt.mpr hLR)]
  · intro hRL
    unfold fixDirection
    rw [if_pos (by exact hRL)]

theorem C2_steering_direction_witness :
    ((⟨.SteeringRight,
        ⟨some ⟨"d", "n", 0, 4/5, 4/5, false⟩, none, none, none, none, none, none⟩,
        [⟨"d", "n", 0, 4/5, 1/5⟩], none, none⟩ :
          CalibrationWizard).advance true).1.config.steering =
      some ⟨"d", "n", 0, 1/5, 4/5, true⟩ :=
  (C2_steering_direction
      ⟨.SteeringLeft, WheelConfig.default, [⟨"d", "n", 0, 0, 4/5⟩], none, none⟩
      ⟨.SteeringRight,
        ⟨some ⟨"d", "n", 0, 4/5, 4/5, false⟩, none, none, none, none, none, none⟩,
        [⟨"d", "n", 0, 4/5, 1/5⟩], none, none⟩
      true true "d" "n" "d" "n" 0 0 (4/5) (1/5) rfl
      (by norm_num [CalibrationWizard.capture_axis_position,
        CalibrationWizard.get_most_moved_axis, maxByMovement, maxStep,
        List.foldl, AxisTracker.movement, absQ])
      rfl
      (by norm_num [CalibrationWizard.advance,
        CalibrationWizard.capture_axis_position,
        CalibrationWizard.get_most_moved_axis, maxByMovement, maxStep,
        List.foldl, AxisTracker.movement, absQ])
      (by norm_num [CalibrationWizard.capture_axis_position,
        CalibrationWizard.get_most_moved_axis, maxByMovement, maxStep,
        List.foldl, AxisTracker.movement, absQ])).2
    (by norm_num)

/-- C7: `is_complete` is true exactly when steering, throttle, brake,
shift_up and shift_down are all bound; the clutch binding and the
force-feedback target never affect the result. -/
theorem C7_is_complete_iff :
    (∀ c : WheelConfig,
      c.is_complete = true ↔
        (c.steering.isSome = true ∧ c.throttle.isSome = true ∧
          c.brake.isSome = true ∧ c.shift_up.isSome = true ∧
          c.shift_down.isSome = true)) ∧
    (∀ (c : WheelConfig) (cl : Option AxisBinding) (ff : Option String),
      ({ c with clutch := cl, force_feedback_device := ff } : WheelConfig).is_complete
        = c.is_complete) := by
  constructor
  · intro c
    simp [WheelConfig.is_complete, Bool.and_eq_true, and_assoc]
  · intro c cl ff
    rfl

/-- Boolean check that an optional axis binding is ordered
(`min_value ≤ max_value`); absent bindings count as ordered. -/
def orderedOpt (o : Option AxisBinding) : Bool :=
  o.all fun b => decide (b.min_value ≤ b.max_value)

/-- Every axis binding present in the config is ordered. -/
def WheelConfig.axes_ordered (c : WheelConfig) : Bool :=
  orderedOpt c.steering && orderedOpt c.throttle
    && orderedOpt c.brake && orderedOpt c.clutch

theorem fixDirection_ordered (b : AxisBinding) :
    (fixDirection b).min_value ≤ (fixDirection b).max_value := by
  unfold fixDirection
  split
  · exact le_of_lt ‹_›
  · exact le_of_not_lt ‹_›

theorem orderedOpt_some_fix (b : AxisBinding) :
    orderedOpt (some (fixDirection b)) = true := by
  simp [orderedOpt, fixDirection_ordered b]

theorem process_event_config (w : CalibrationWizard) (e : InputEvent) :
    (w.process_event e).config = w.config := by
  cases e
  case AxisMoved =>
    simp only [CalibrationWizard.process_event]
    split <;> rfl
  all_goals rfl

/-- C10: each of `process_event`, `advance` and `skip` preserves the
invariant that every axis binding present in the config satisfies
`min_value ≤ max_value` — first-half captures yield `min_value =
max_value`, and each second-half capture restores the order by swapping
when needed. -/
theorem C10_axis_bindings_ordered (w : CalibrationWizard) (e : InputEvent)
    (saveOk : Bool) (h : w.config.axes_ordered = true) :
    (w.process_event e).config.axes_ordered = true ∧
    (w.advance saveOk).1.config.axes_ordered = true ∧
    w.skip.config.axes_ordered = true := by
  refine ⟨by rw [process_event_config]; exact h, ?_, h⟩
  obtain ⟨⟨⟨h1, h2⟩, h3⟩, h4⟩ :
      (((Option.all (fun b => decide (b.min_value ≤ b.max_value)) w.config.steering = true ∧
          Option.all (fun b => decide (b.min_value ≤ b.max_value)) w.config.throttle = true) ∧
        Option.all (fun b => decide (b.min_value ≤ b.max_value)) w.config.brake = true) ∧
        Option.all (fun b => decide (b.min_value ≤ b.max_value)) w.config.clutch = true) := by
    simpa [WheelConfig.axes_ordered, orderedOpt, Bool.and_eq_true] using h
  simp only [CalibrationWizard.advance]
  rw [capture_axis_position_step, capture_axis_position_config]
  cases hs : w.step
  case Welcome => exact h
  case Complete => exact h
  case ShiftUp =>
    cases hcb : w.capture_axis_position.captured_button with
    | none => exact h
    | some q => obtain ⟨id, nm, cd⟩ := q; exact h
  case ShiftDown =>
    cases hcb : w.capture_axis_position.captured_button with
    | none => exact h
    | some q => obtain ⟨id, nm, cd⟩ := q; exact h
  case SteeringLeft =>
    cases hca : w.capture_axis_position.captured_axis with
    | none => exact h
    | some q =>
        obtain ⟨id, nm, cd, v⟩ := q
        simp [WheelConfig.axes_ordered, orderedOpt, h2, h3, h4]
  case ThrottlePressed =>
    cases hca : w.capture_axis_position.captured_axis with
    | none => exact h
    | some q =>
        obtain ⟨id, nm, cd, v⟩ := q
        simp [WheelConfig.axes_ordered, orderedOpt, h1, h3, h4]
  case BrakePressed =>
    cases hca : w.capture_axis_position.captured_axis with
    | none => exact h
    | some q =>
        obtain ⟨id, nm, cd, v⟩ := q
        simp [WheelConfig.axes_ordered, orderedOpt, h1, h2, h4]
  case ClutchPressed =>
    cases hca : w.capture_axis_position.captured_axis with
    | none => exact h
    | some q =>
        obtain ⟨id, nm, cd, v⟩ := q
        simp [WheelConfig.axes_ordered, orderedOpt, h1, h2, h3]
  case SteeringRight =>
    cases hst : w.config.steering with
    | none => cases hca : w.capture_axis_position.captured_axis <;> exact h
    | some s =>
        cases hca : w.capture_axis_position.captured_axis with
        | none => exact h
        | some q =>
            obtain ⟨id, nm, cd, v⟩ := q
            simp [WheelConfig.axes_ordered, orderedOpt, fixDirection_ordered, h2, h3, h4]
  case ThrottleReleased =>
    cases hst : w.config.throttle with
    | none => cases hca : w.capture_axis_position.captured_axis <;> exact h
    | some s =>
        cases hca : w.capture_axis_position.captured_axis with
        | none => exact h
        | some q =>
            obtain ⟨id, nm, cd, v⟩ := q
            simp [WheelConfig.axes_ordered, orderedOpt, fixDirection_ordered, h1, h3, h4]
  case BrakeReleased =>
    cases hst : w.config.brake with
    | none => cases hca : w.capture_axis_position.captured_axis <;> exact h
    | some s =>
        cases hca : w.capture_axis_position.captured_axis with
        | none => exact h
        | some q =>
            obtain ⟨id, nm, cd, v⟩ := q
            simp [WheelConfig.axes_ordered, orderedOpt, fixDirection_ordered, h1, h2, h4]
  case ClutchReleased =>
    cases hst : w.config.clutch with
    | none => cases hca : w.capture_axis_position.captured_axis <;> exact h
    | some s =>
        cases hca : w.capture_axis_position.captured_axis with
        | none => exact h
        | some q =>
            obtain ⟨id, nm, cd, v⟩ := q
            simp [WheelConfig.axes_ordered, orderedOpt, fixDirection_ordered, h1, h2, h3]

theorem C10_axis_bindings_ordered_witness :
    (((⟨.SteeringRight,
        ⟨some ⟨"d", "n", 0, 0, 0, false⟩, none, none, none, none, none, none⟩,
        [⟨"d", "n", 0, 0, 1⟩], none, none⟩ :
          CalibrationWizard).process_event
            (InputEvent.AxisMoved "d" "n" 0 (1/2))).config.axes_ordered = true) ∧
    ((((⟨.SteeringRight,
        ⟨some ⟨"d", "n", 0, 0, 0, false⟩, none, none, none, none, none, none⟩,
        [⟨"d", "n", 0, 0, 1⟩], none, none⟩ :
          CalibrationWizard).advance true).1.config.axes_ordered = true) ∧
      (⟨.SteeringRight,
        ⟨some ⟨"d", "n", 0, 0, 0, false⟩, none, none, none, none, none, none⟩,
        [⟨"d", "n", 0, 0, 1⟩], none, none⟩ :
          CalibrationWizard).skip.config.axes_ordered = true) :=
  C10_axis_bindings_ordered
    ⟨.SteeringRight,
      ⟨some ⟨"d", "n", 0, 0, 0, false⟩, none, none, none, none, none, none⟩,
      [⟨"d", "n", 0, 0, 1⟩], none, none⟩
    (InputEvent.AxisMoved "d" "n" 0 (1/2)) true
    (by norm_num [WheelConfig.axes_ordered, orderedOpt])

/-- Rumble command recovered from the virtual pad (`RumbleState` in
`src/virtual_controller/mod.rs`); `default` is {0, 0}. -/
structure RumbleState where
  large_motor : ℚ
  small_motor : ℚ
deriving DecidableEq, Repr

/-- Truncation toward zero: the rounding used by Rust float-to-integer
`as` casts. -/
def truncQ (q : ℚ) : ℤ := if 0 ≤ q then ⌊q⌋ else ⌈q⌉

/-- Saturating `as i16` cast of a float value. -/
def toI16Sat (q : ℚ) : ℤ := max (-32768) (min 32767 (truncQ q))

/-- Saturating `as i32` cast of a float value. -/
def toI32Sat (q : ℚ) : ℤ := max (-2147483648) (min 2147483647 (truncQ q))

namespace FFLinux

/-- Constant-force level computed by `ForceFeedbackDevice::apply_rumble`
in `src/force_feedback/linux.rs`: both motor values clamped to [0, 1],
their difference scaled by 32767 and cast to `i16`. -/
def apply_rumble (r : RumbleState) : ℤ :=
  toI16Sat ((clampQ r.large_motor 0 1 - clampQ r.small_motor 0 1) * 32767)

end FFLinux

namespace FFWindows

/-- Constant-force magnitude computed by `ForceFeedbackDevice::apply_rumble`
in `src/force_feedback/windows.rs`: both motor values clamped to [0, 1],
their difference scaled by 10000 (DirectInput nominal maximum) and cast
to `i32`. -/
def apply_rumble (r : RumbleState) : ℤ :=
  toI32Sat ((clampQ r.large_motor 0 1 - clampQ r.small_motor 0 1) * 10000)

end FFWindows

theorem truncQ_intCast (n : ℤ) : truncQ (n : ℚ) = n := by
  unfold truncQ
  split
  · exact Int.floor_intCast n
  · exact Int.ceil_intCast n

theorem truncQ_mem (lo hi : ℤ) {q : ℚ} (hlo : (lo : ℚ) ≤ q) (hhi : q ≤ (hi : ℚ)) :
    lo ≤ truncQ q ∧ truncQ q ≤ hi := by
  unfold truncQ
  split
  · exact ⟨Int.le_floor.mpr hlo, Int.cast_le.mp (le_trans (Int.floor_le q) hhi)⟩
  · exact ⟨Int.cast_le.mp (le_trans hlo (Int.le_ceil q)), Int.ceil_le.mpr hhi⟩

theorem truncQ_approx (q : ℚ) : |(truncQ q : ℚ) - q| < 1 := by
  unfold truncQ
  split
  · rw [abs_lt]
    constructor <;> linarith [Int.floor_le q, Int.sub_one_lt_floor q]
  · rw [abs_lt]
    constructor <;> linarith [Int.le_ceil q, Int.ceil_lt_add_one q]

theorem clampQ_unit_idem (x : ℚ) : clampQ (clampQ x 0 1) 0 1 = clampQ x 0 1 :=
  clampQ_eq_self (lo_le_clampQ (by norm_num)) clampQ_le_hi

theorem clamp_unit_diff_bounds (r : RumbleState) :
    (-1 : ℚ) ≤ clampQ r.large_motor 0 1 - clampQ r.small_motor 0 1 ∧
      clampQ r.large_motor 0 1 - clampQ r.small_motor 0 1 ≤ 1 := by
  have hl0 : (0 : ℚ) ≤ clampQ r.large_motor 0 1 := lo_le_clampQ (by norm_num)
  have hl1 : clampQ r.large_motor 0 1 ≤ 1 := clampQ_le_hi
  have hs0 : (0 : ℚ) ≤ clampQ r.small_motor 0 1 := lo_le_clampQ (by norm_num)
  have hs1 : clampQ r.small_motor 0 1 ≤ 1 := clampQ_le_hi
  constructor <;> linarith

theorem toI16Sat_eq_truncQ {q : ℚ}
    (h1 : ((-32767 : ℤ) : ℚ) ≤ q) (h2 : q ≤ ((32767 : ℤ) : ℚ)) :
    toI16Sat q = truncQ q := by
  have hm := truncQ_mem (-32767) 32767 h1 h2
  unfold toI16Sat
  rw [min_eq_right (le_trans hm.2 (by norm_num)),
    max_eq_right (le_trans (by norm_num) hm.1)]

theorem toI32Sat_eq_truncQ {q : ℚ}
    (h1 : ((-10000 : ℤ) : ℚ) ≤ q) (h2 : q ≤ ((10000 : ℤ) : ℚ)) :
    toI32Sat q = truncQ q := by
  have hm := truncQ_mem (-10000) 10000 h1 h2
  unfold toI32Sat
  rw [min_eq_right (le_trans hm.2 (by norm_num)),
    max_eq_right (le_trans (by norm_num) hm.1)]

/-- C3: both platform `apply_rumble` mappings clamp each motor value to
[0, 1] first and produce, for every rumble pair, the single
constant-force level `(large - small) * max_force_units` (up to the
integer truncation of the cast, and exactly at the documented extremes):
full large motor gives the maximum positive force, full small motor the
maximum negative force, and both motors idle give exactly zero; each
level always stays within the symmetric actuator range, [-32767, 32767]
on linux and [-10000, 10000] on windows. -/
theorem C3_apply_rumble_force :
    (∀ r : RumbleState,
      FFLinux.apply_rumble r =
        FFLinux.apply_rumble ⟨clampQ r.large_motor 0 1, clampQ r.small_motor 0 1⟩) ∧
    (∀ r : RumbleState,
      (-32767 ≤ FFLinux.apply_rumble r ∧ FFLinux.apply_rumble r ≤ 32767) ∧
      |(FFLinux.apply_rumble r : ℚ) -
          (clampQ r.large_motor 0 1 - clampQ r.small_motor 0 1) * 32767| < 1) ∧
    (∀ r : RumbleState,
      FFWindows.apply_rumble r =
        FFWindows.apply_rumble ⟨clampQ r.large_motor 0 1, clampQ r.small_motor 0 1⟩) ∧
    (∀ r : RumbleState,
      (-10000 ≤ FFWindows.apply_rumble r ∧ FFWindows.apply_rumble r ≤ 10000) ∧
      |(FFWindows.apply_rumble r : ℚ) -
          (clampQ r.large_motor 0 1 - clampQ r.small_motor 0 1) * 10000| < 1) ∧
    FFLinux.apply_rumble ⟨1, 0⟩ = 32767 ∧
    FFLinux.apply_rumble ⟨0, 1⟩ = -32767 ∧
    FFLinux.apply_rumble ⟨0, 0⟩ = 0 ∧
    FFWindows.apply_rumble ⟨1, 0⟩ = 10000 ∧
    FFWindows.apply_rumble ⟨0, 1⟩ = -10000 ∧
    FFWindows.apply_rumble ⟨0, 0⟩ = 0 := by
  have hc1 : clampQ (1 : ℚ) 0 1 = 1 := clampQ_eq_self (by norm_num) (by norm_num)
  have hc0 : clampQ (0 : ℚ) 0 1 = 0 := clampQ_eq_self (by norm_num) (by norm_num)
  have hvalL : ∀ r : RumbleState,
      (-32767 : ℚ) ≤ (clampQ r.large_motor 0 1 - clampQ r.small_motor 0 1) * 32767 ∧
      (clampQ r.large_motor 0 1 - clampQ r.small_motor 0 1) * 32767 ≤ 32767 := by
    intro r
    have hd := clamp_unit_diff_bounds r
    constructor <;> nlinarith [hd.1, hd.2]
  have hvalW : ∀ r : RumbleState,
      (-10000 : ℚ) ≤ (clampQ r.large_motor 0 1 - clampQ r.small_motor 0 1) * 10000 ∧
      (clampQ r.large_motor 0 1 - clampQ r.small_motor 0 1) * 10000 ≤ 10000 := by
    intro r
    have hd := clamp_unit_diff_bounds r
    constructor <;> nlinarith [hd.1, hd.2]
  refine ⟨?_, ?_, ?_, ?_, ?_, ?_, ?_, ?_, ?_, ?_⟩
  · intro r
    unfold FFLinux.apply_rumble
    rw [clampQ_unit_idem, clampQ_unit_idem]
  · intro r
    have hsat : toI16Sat ((clampQ r.large_motor 0 1 - clampQ r.small_motor 0 1) * 32767)
        = truncQ ((clampQ r.large_motor 0 1 - clampQ r.small_motor 0 1) * 32767) :=
      toI16Sat_eq_truncQ (by push_cast; exact (hvalL r).1) (by push_cast; exact (hvalL r).2)
    have hmem := truncQ_mem (-32767) 32767
      (by push_cast; exact (hvalL r).1) (by push_cast; exact (hvalL r).2)
    exact ⟨⟨by rw [FFLinux.apply_rumble, hsat]; exact hmem.1,
        by rw [FFLinux.apply_rumble, hsat]; exact hmem.2⟩,
      by rw [FFLinux.apply_rumble, hsat]; exact truncQ_approx _⟩
  · intro r
    unfold FFWindows.apply_rumble
    rw [clampQ_unit_idem, clampQ_unit_idem]
  · intro r
    have hsat : toI32Sat ((clampQ r.large_motor 0 1 - clampQ r.small_motor 0 1) * 10000)
        = truncQ ((clampQ r.large_motor 0 1 - clampQ r.small_motor 0 1) * 10000) :=
      toI32Sat_eq_truncQ (by push_cast; exact (hvalW r).1) (by push_cast; exact (hvalW r).2)
    have hmem := truncQ_mem (-10000) 10000
      (by push_cast; exact (hvalW r).1) (by push_cast; exact (hvalW r).2)
    exact ⟨⟨by rw [FFWindows.apply_rumble, hsat]; exact hmem.1,
        by rw [FFWindows.apply_rumble, hsat]; exact hmem.2⟩,
      by rw [FFWindows.apply_rumble, hsat]; exact truncQ_approx _⟩
  · show toI16Sat ((clampQ 1 0 1 - clampQ 0 0 1) * 32767) = 32767
    rw [hc1, hc0, show ((1 : ℚ) - 0) * 32767 = ((32767 : ℤ) : ℚ) by norm_num]
    unfold toI16Sat
    rw [truncQ_intCast]
    decide
  · show toI16Sat ((clampQ 0 0 1 - clampQ 1 0 1) * 32767) = -32767
    rw [hc1, hc0, show ((0 : ℚ) - 1) * 32767 = ((-32767 : ℤ) : ℚ) by norm_num]
    unfold toI16Sat
    rw [truncQ_intCast]
    decide
  · show toI16Sat ((clampQ 0 0 1 - clampQ 0 0 1) * 32767) = 0
    rw [hc0, show ((0 : ℚ) - 0) * 32767 = ((0 : ℤ) : ℚ) by norm_num]
    unfold toI16Sat
    rw [truncQ_intCast]
    decide
  · show toI32Sat ((clampQ 1 0 1 - clampQ 0 0 1) * 10000) = 10000
    rw [hc1, hc0, show ((1 : ℚ) - 0) * 10000 = ((10000 : ℤ) : ℚ) by norm_num]
    unfold toI32Sat
    rw [truncQ_intCast]
    decide
  · show toI32Sat ((clampQ 0 0 1 - clampQ 1 0 1) * 10000) = -10000
    rw [hc1, hc0, show ((0 : ℚ) - 1) * 10000 = ((-10000 : ℤ) : ℚ) by norm_num]
    unfold toI32Sat
    rw [truncQ_intCast]
    decide
  · show toI32Sat ((clampQ 0 0 1 - clampQ 0 0 1) * 10000) = 0
    rw [hc0, show ((0 : ℚ) - 0) * 10000 = ((0 : ℤ) : ℚ) by norm_num]
    unfold toI32Sat
    rw [truncQ_intCast]
    decide

/-- Stored rumble effect payload (`FFRumbleEffect` in
`src/virtual_controller/linux.rs`); magnitudes are `u16`. -/
structure FFRumbleEffect where
  strong_magnitude : Nat
  weak_magnitude : Nat
deriving DecidableEq, Repr

/-- Events decoded by the force-feedback polling thread of
`src/virtual_controller/linux.rs`: an upload (stored only when the
uploaded effect has type FF_RUMBLE), an erase, and an EV_FF event whose
positive value plays the referenced effect and whose non-positive value
stops it. -/
inductive FFEvent where
  | upload (effect_id : Int) (is_rumble_type : Bool) (eff : FFRumbleEffect)
  | erase (effect_id : Int)
  | play (effect_id : Int) (value : Int)
deriving DecidableEq, Repr

def FFEvent.isPlay : FFEvent → Bool
  | .play _ _ => true
  | _ => false

/-- Shared state of the polling thread: the `ff_effects` map (modelled as
an association list) and the `rumble_state` cell read by `get_rumble`. -/
structure FFListener where
  ff_effects : List (Int × FFRumbleEffect)
  rumble_state : RumbleState
deriving DecidableEq, Repr

/-- `HashMap::insert` on the effects map. -/
def insertEffect (l : List (Int × FFRumbleEffect)) (id : Int) (e : FFRumbleEffect) :
    List (Int × FFRumbleEffect) :=
  if l.any (fun p => p.1 == id) then
    l.map (fun p => if p.1 == id then (id, e) else p)
  else l ++ [(id, e)]

/-- `HashMap::remove` on the effects map. -/
def removeEffect (l : List (Int × FFRumbleEffect)) (id : Int) :
    List (Int × FFRumbleEffect) :=
  l.filter (fun p => !(p.1 == id))

/-- `HashMap::get` on the effects map. -/
def lookupEffect (l : List (Int × FFRumbleEffect)) (id : Int) :
    Option FFRumbleEffect :=
  (l.find? (fun p => p.1 == id)).map Prod.snd

/-- One decoded event handled by the polling-thread loop
(`start_ff_polling_thread`): upload stores a rumble effect, erase removes
it, a play event with positive count writes the stored effect's
magnitudes scaled by `u16::MAX` into the rumble cell (unknown ids are
ignored), and a play event with non-positive count zeroes the cell. -/
def FFListener.handle (s : FFListener) (e : FFEvent) : FFListener :=
  match e with
  | .upload id isRumbleType eff =>
      if isRumbleType then
        { s with ff_effects := insertEffect s.ff_effects id eff }
      else s
  | .erase id => { s with ff_effects := removeEffect s.ff_effects id }
  | .play id v =>
      if 0 < v then
        match lookupEffect s.ff_effects id with
        | some eff =>
            { s with rumble_state :=
                ⟨(eff.strong_magnitude : ℚ) / 65535, (eff.weak_magnitude : ℚ) / 65535⟩ }
        | none => s
      else
        { s with rumble_state := ⟨0, 0⟩ }

/-- Listener state of a freshly connected backend: empty effect map and
`RumbleState::default()`. -/
def FFListener.init : FFListener := ⟨[], ⟨0, 0⟩⟩

/-- Sequential processing of decoded events by the polling thread. -/
def FFListener.run (s : FFListener) (evs : List FFEvent) : FFListener :=
  evs.foldl FFListener.handle s

/-- `VirtualController::get_rumble`: clones the current rumble cell. -/
def FFListener.get_rumble (s : FFListener) : RumbleState := s.rumble_state

theorem handle_rumble_of_not_play (s : FFListener) (e : FFEvent)
    (he : e.isPlay = false) : (s.handle e).rumble_state = s.rumble_state := by
  cases e with
  | upload id isR eff =>
      simp only [FFListener.handle]
      split <;> rfl
  | erase id => rfl
  | play id v => simp [FFEvent.isPlay] at he

theorem run_rumble_of_no_play (evs : List FFEvent) :
    ∀ s : FFListener, (∀ e ∈ evs, e.isPlay = false) →
      (s.run evs).rumble_state = s.rumble_state := by
  induction evs with
  | nil => intro s _; rfl
  | cons a l ih =>
      intro s h
      have : (s.run (a :: l)) = ((s.handle a).run l) := rfl
      rw [this, ih (s.handle a) (fun e he => h e (List.mem_cons_of_mem a he)),
        handle_rumble_of_not_play s a (h a (List.mem_cons_self a l))]

/-- C9: the rumble cell of a freshly connected backend reads {0, 0};
it still reads {0, 0} after any sequence of non-play events (uploads and
erases); a play event with positive count for a stored effect makes
`get_rumble` return that effect's magnitudes scaled by `u16::MAX` into
[0, 1]; and a stop event (non-positive count) resets it to {0, 0}. -/
theorem C9_get_rumble_events (evs : List FFEvent) (s : FFListener)
    (id v : Int) (eff : FFRumbleEffect) :
    FFListener.init.get_rumble = ⟨0, 0⟩ ∧
    ((∀ e ∈ evs, e.isPlay = false) →
      (FFListener.init.run evs).get_rumble = ⟨0, 0⟩) ∧
    (0 < v → lookupEffect s.ff_effects id = some eff →
      (s.handle (FFEvent.play id v)).get_rumble =
        ⟨(eff.strong_magnitude : ℚ) / 65535, (eff.weak_magnitude : ℚ) / 65535⟩ ∧
      (eff.strong_magnitude ≤ 65535 → eff.weak_magnitude ≤ 65535 →
        (0 ≤ (eff.strong_magnitude : ℚ) / 65535 ∧
          (eff.strong_magnitude : ℚ) / 65535 ≤ 1) ∧
        (0 ≤ (eff.weak_magnitude : ℚ) / 65535 ∧
          (eff.weak_magnitude : ℚ) / 65535 ≤ 1))) ∧
    (v ≤ 0 → (s.handle (FFEvent.play id v)).get_rumble = ⟨0, 0⟩) := by
  refine ⟨rfl, ?_, ?_, ?_⟩
  · intro h
    show (FFListener.init.run evs).rumble_state = _
    rw [run_rumble_of_no_play evs FFListener.init h]
    rfl
  · intro hv hl
    constructor
    · show (FFListener.handle s (FFEvent.play id v)).rumble_state = _
      simp only [FFListener.handle]
      rw [if_pos hv, hl]
    · intro hstrong hweak
      have hs1 : ((eff.strong_magnitude : ℚ)) ≤ 65535 := by exact_mod_cast hstrong
      have hw1 : ((eff.weak_magnitude : ℚ)) ≤ 65535 := by exact_mod_cast hweak
      refine ⟨⟨div_nonneg (Nat.cast_nonneg _) (by norm_num), ?_⟩,
        ⟨div_nonneg (Nat.cast_nonneg _) (by norm_num), ?_⟩⟩
      · rw [div_le_one (by norm_num)]
        exact hs1
      · rw [div_le_one (by norm_num)]
        exact hw1
  · intro hv
    show (FFListener.handle s (FFEvent.play id v)).rumble_state = _
    simp only [FFListener.handle]
    rw [if_neg (not_lt.mpr hv)]

theorem C9_get_rumble_events_witness :
    (FFListener.init.run [FFEvent.upload 3 true ⟨32768, 16384⟩]).get_rumble =
        ⟨0, 0⟩ ∧
    ((FFListener.init.run [FFEvent.upload 3 true ⟨32768, 16384⟩]).handle
        (FFEvent.play 3 1)).get_rumble =
      ⟨(((32768 : ℕ) : ℚ)) / 65535, (((16384 : ℕ) : ℚ)) / 65535⟩ ∧
    ((0 ≤ (((32768 : ℕ) : ℚ)) / 65535 ∧ (((32768 : ℕ) : ℚ)) / 65535 ≤ 1) ∧
      (0 ≤ (((16384 : ℕ) : ℚ)) / 65535 ∧ (((16384 : ℕ) : ℚ)) / 65535 ≤ 1)) ∧
    ((FFListener.init.run [FFEvent.upload 3 true ⟨32768, 16384⟩]).handle
        (FFEvent.play 3 0)).get_rumble = ⟨0, 0⟩ :=
  ⟨(C9_get_rumble_events [FFEvent.upload 3 true ⟨32768, 16384⟩]
        FFListener.init 3 1 ⟨32768, 16384⟩).2.1 (by decide),
    ((C9_get_rumble_events []
        (FFListener.init.run [FFEvent.upload 3 true ⟨32768, 16384⟩]) 3 1
        ⟨32768, 16384⟩).2.2.1 (by decide) (by decide)).1,
    ((C9_get_rumble_events []
        (FFListener.init.run [FFEvent.upload 3 true ⟨32768, 16384⟩]) 3 1
        ⟨32768, 16384⟩).2.2.1 (by decide) (by decide)).2 (by decide) (by decide),
    (C9_get_rumble_events []
        (FFListener.init.run [FFEvent.upload 3 true ⟨32768, 16384⟩]) 3 0
        ⟨32768, 16384⟩).2.2.2 (by decide)⟩

end RoWheel
